import Mathlib

/-!
Shallow embedding of the `noise_cat` stress accumulator / mood classifier
(`StateMachine`), in its three source variants:

* `NoiseCat.Script` — the band-relative variant of `src/script.js`:
  per-frame rate = (band width) / (stateDuration * 60), added when the
  volume exceeds the volume threshold and subtracted otherwise, then
  clamped to [0, maxStress]; thresholds are configurable.
* `NoiseCat.Logic` — the fixed-multiplier variant of
  `src/src/logic/StateMachine.js`: added stress =
  (volume - threshold) * sensitivity * 0.05, fixed decay otherwise;
  mood thresholds are the literals 10/30/60/90.
* `NoiseCat.Part1` — the variant of `src/unnamed/part_001`: same as
  `Logic` but with gain constant 0.005, plus localStorage-backed
  `loadSettings`.

JavaScript numbers are modelled as exact rationals (ℚ).  Side effects are
made explicit: methods that mutate `this` become functions from the
machine record to a new record, and the `onStateChange` callback becomes
the list of notifications emitted during the call.  The callback slot
itself is kept as an abstract field of type `C` so that theorems can state
that `update` leaves it untouched.
-/

namespace NoiseCat

/-- The five mood states, `'SLEEP' | 'CALM' | 'ANXIOUS' | 'IRRITATED' | 'PANIC'`
in the source. -/
inductive CatState where
  | SLEEP
  | CALM
  | ANXIOUS
  | IRRITATED
  | PANIC
deriving DecidableEq, Repr

/-- Position of a mood in the order SLEEP < CALM < ANXIOUS < IRRITATED < PANIC. -/
def CatState.toIdx : CatState → ℕ
  | .SLEEP => 0
  | .CALM => 1
  | .ANXIOUS => 2
  | .IRRITATED => 3
  | .PANIC => 4

/-- The `thresholds` record of `script.js`: lower bounds of the four
non-sleeping bands (`SLEEP` = sleep→calm boundary, etc.). -/
structure Thresholds where
  SLEEP : ℚ
  CALM : ℚ
  ANXIOUS : ℚ
  IRRITATED : ℚ
deriving DecidableEq, Repr

/-- Default thresholds set in the `script.js` constructor. -/
def defaultThresholds : Thresholds := ⟨10, 30, 60, 90⟩

/-- The two-step clamp at the end of `update`:
`if (stress < 0) stress = 0; if (stress > maxStress) stress = maxStress;`. -/
def clamp2 (maxStress x : ℚ) : ℚ :=
  let y := if x < 0 then 0 else x
  if y > maxStress then maxStress else y

/-- The least of the five band widths that a threshold set cuts out of
[0,100]; when the boundaries are strictly ascending inside (0,100) it is
a positive lower bound on every band-relative rate numerator. -/
def minBandWidth (t : Thresholds) : ℚ :=
  min t.SLEEP (min (t.CALM - t.SLEEP)
    (min (t.ANXIOUS - t.CALM) (min (t.IRRITATED - t.ANXIOUS) (100 - t.IRRITATED))))

namespace Script

/-- Instance state of the `StateMachine` class in `src/script.js`.
`C` is the type of the registered callbacks record, opaque to the core. -/
structure StateMachine (C : Type) where
  stress : ℚ
  maxStress : ℚ
  state : CatState
  callbacks : C
  sensitivity : ℚ
  stateDuration : ℚ
  thresholds : Thresholds
  volumeThreshold : ℚ

variable {C : Type}

/-- The fresh instance built by the `script.js` constructor (before
`loadSettings` overrides fields from storage). -/
def initMachine (c : C) : StateMachine C :=
  { stress := 0
    maxStress := 100
    state := .SLEEP
    callbacks := c
    sensitivity := 1
    stateDuration := 5
    thresholds := defaultThresholds
    volumeThreshold := 10 }

/-- `getCurrentStateRange`: the `{min, max}` stress range of the band
containing the current stress, chosen by the if-cascade of the source. -/
def getCurrentStateRange (m : StateMachine C) : ℚ × ℚ :=
  if m.stress < m.thresholds.SLEEP then (0, m.thresholds.SLEEP)
  else if m.stress < m.thresholds.CALM then (m.thresholds.SLEEP, m.thresholds.CALM)
  else if m.stress < m.thresholds.ANXIOUS then (m.thresholds.CALM, m.thresholds.ANXIOUS)
  else if m.stress < m.thresholds.IRRITATED then (m.thresholds.ANXIOUS, m.thresholds.IRRITATED)
  else (m.thresholds.IRRITATED, 100)

/-- The pure if-cascade of `determineState`: highest band first, default
`SLEEP`.  (In the source, the local `newState` starts at `'SLEEP'` and the
cascade always assigns it.) -/
def classify (t : Thresholds) (stress : ℚ) : CatState :=
  if stress ≥ t.IRRITATED then .PANIC
  else if stress ≥ t.ANXIOUS then .IRRITATED
  else if stress ≥ t.CALM then .ANXIOUS
  else if stress ≥ t.SLEEP then .CALM
  else .SLEEP

/-- `determineState`: reclassify, and when the mood changed store it and
invoke `callbacks.onStateChange(newState)`.  The second component is the
list of notifications emitted (with the new state key as argument). -/
def determineState (m : StateMachine C) : StateMachine C × List CatState :=
  let newState := classify m.thresholds m.stress
  if newState ≠ m.state then ({ m with state := newState }, [newState])
  else (m, [])

/-- `update(volume)`: band-relative rate, add when the volume exceeds the
volume threshold and subtract otherwise, clamp, then `determineState`.
Returns the updated instance and the notifications emitted. -/
def update (m : StateMachine C) (volume : ℚ) : StateMachine C × List CatState :=
  let currentRange := getCurrentStateRange m
  let stateWidth := currentRange.2 - currentRange.1
  let rate := stateWidth / (m.stateDuration * 60)
  let s1 := if volume > m.volumeThreshold then m.stress + rate else m.stress - rate
  determineState { m with stress := clamp2 m.maxStress s1 }

/-- The `limits` record passed to `setSettings` from the settings panel. -/
structure Limits where
  sleep : ℚ
  calm : ℚ
  anxious : ℚ
  irritated : ℚ
deriving DecidableEq, Repr

/-- The partial-settings argument of `setSettings` in `script.js`:
absent fields (`undefined` in the source) are `none`. -/
structure SettingsArg where
  sensitivity : Option ℚ
  duration : Option ℚ
  limits : Option Limits

/-- `setSettings`: overwrite whichever of sensitivity / duration / limits
is present.  No floor or validation is applied to any field.
(The trailing `saveSettings()` call is external persistence.) -/
def setSettings (m : StateMachine C) (s : SettingsArg) : StateMachine C :=
  let m1 := match s.sensitivity with
    | some v => { m with sensitivity := v }
    | none => m
  let m2 := match s.duration with
    | some v => { m1 with stateDuration := v }
    | none => m1
  match s.limits with
  | some l => { m2 with thresholds := ⟨l.sleep, l.calm, l.anxious, l.irritated⟩ }
  | none => m2

/-- Iterate `update` with a constant volume of 0, keeping the machine. -/
def runZero (m : StateMachine C) : ℕ → StateMachine C
  | 0 => m
  | n + 1 => (update (runZero m n) 0).1

/-- Iterate `update` with a constant volume, keeping the machine. -/
def runConst (m : StateMachine C) (volume : ℚ) : ℕ → StateMachine C
  | 0 => m
  | n + 1 => (update (runConst m volume n) volume).1

/-- The spec's timing scenario instance: default settings with
`stateDuration = 3` (thresholds {10,30,60,90}, volume threshold 10,
starting stress 0, state `SLEEP`). -/
def scenarioMachine : StateMachine Unit :=
  { initMachine () with stateDuration := 3 }

/-- A JavaScript value as it can appear in a persisted settings field:
a number, a string, or `undefined` (i.e. the field is missing from the
parsed record).  JS fields are dynamically typed, so the loaded settings
fields below range over this type. -/
inductive JSVal where
  | num (q : ℚ)
  | str (s : String)
  | undef
deriving DecidableEq, Repr

/-- JavaScript truthiness of such a value: `0`, the empty string and
`undefined` are falsy, everything else is truthy. -/
def JSVal.truthy : JSVal → Bool
  | .num q => decide (q ≠ 0)
  | .str s => decide (s ≠ "")
  | .undef => false

/-- The parsed `noise_cat_settings_v2` record: each field holds whatever
JS value the stored JSON had for it (`undef` when missing).  The
`thresholds` sub-object is `none` when missing. -/
structure SavedSettings where
  sensitivity : JSVal
  duration : JSVal
  thresholds : Option Thresholds

/-- What `localStorage.getItem` + `JSON.parse` can produce: no record at
all, a record that fails to parse (the `catch` branch), or a parsed
record. -/
inductive StoredSettings where
  | absent
  | malformed
  | parsed (s : SavedSettings)

/-- The three settings fields of a `script.js` instance, widened to raw
JS values: `loadSettings` copies persisted values into `this` without any
type check, so after loading these fields can hold non-numeric values. -/
structure LoadedSettings where
  sensitivity : JSVal
  stateDuration : JSVal
  thresholds : Thresholds
deriving DecidableEq, Repr

/-- The constructor defaults for the three fields `loadSettings` touches:
`sensitivity = 1.0`, `stateDuration = 5`, thresholds `{10, 30, 60, 90}`. -/
def defaultLoaded : LoadedSettings := ⟨.num 1, .num 5, defaultThresholds⟩

/-- `loadSettings` of `script.js`: a missing or unparseable record leaves
every field as it was (the parse error is caught); in a parsed record,
each field is applied only when truthy (`if (settings.sensitivity) ...`),
independently of the other fields. -/
def loadSettings (stored : StoredSettings) (m : LoadedSettings) : LoadedSettings :=
  match stored with
  | .absent => m
  | .malformed => m
  | .parsed s =>
    let m1 := if s.sensitivity.truthy then { m with sensitivity := s.sensitivity } else m
    let m2 := if s.duration.truthy then { m1 with stateDuration := s.duration } else m1
    match s.thresholds with
    | some t => { m2 with thresholds := t }
    | none => m2

end Script

namespace Logic

/-- Instance state of the `StateMachine` class in
`src/src/logic/StateMachine.js` (also the state of the `part_001`
variant, which differs only in its methods).  `C` is the type of the
registered callbacks record. -/
structure StateMachine (C : Type) where
  stress : ℚ
  maxStress : ℚ
  state : CatState
  callbacks : C
  sensitivity : ℚ
  transitionTime : ℚ
  decay : ℚ
  threshold : ℚ

variable {C : Type}

/-- The fresh instance built by the constructor:
`decay = 100 / (3 * 60)`, volume `threshold = 10`. -/
def initMachine (c : C) : StateMachine C :=
  { stress := 0
    maxStress := 100
    state := .SLEEP
    callbacks := c
    sensitivity := 1
    transitionTime := 3
    decay := 100 / (3 * 60)
    threshold := 10 }

/-- The pure if-cascade of `determineState` in this variant: the
thresholds are the literals 90 / 60 / 30 / 10.  (The local `newState`
starts at `this.state` in the source, but the cascade always overwrites
it, so the result depends only on the stress.) -/
def classify (stress : ℚ) : CatState :=
  if stress ≥ 90 then .PANIC
  else if stress ≥ 60 then .IRRITATED
  else if stress ≥ 30 then .ANXIOUS
  else if stress ≥ 10 then .CALM
  else .SLEEP

/-- `determineState`: reclassify and, on a change, store the new state and
invoke `callbacks.onStateChange(this.states[this.state])`.  The emitted
list carries the new state key, which indexes the display descriptor the
callback receives. -/
def determineState (m : StateMachine C) : StateMachine C × List CatState :=
  let newState := classify m.stress
  if newState ≠ m.state then ({ m with state := newState }, [newState])
  else (m, [])

/-- `update(volume)` of `src/src/logic/StateMachine.js`:
`addedStress = (volume - threshold) * sensitivity * 0.05` above the
volume threshold, constant `decay` otherwise, then clamp and
`determineState`. -/
def update (m : StateMachine C) (volume : ℚ) : StateMachine C × List CatState :=
  let s1 := if volume > m.threshold
    then m.stress + (volume - m.threshold) * m.sensitivity * (5 / 100)
    else m.stress - m.decay
  determineState { m with stress := clamp2 m.maxStress s1 }

/-- `setSettings(sensitivity, transitionTime)`: store both values and
recompute `decay = maxStress / (Math.max(0.1, transitionTime) * 60)`. -/
def setSettings (m : StateMachine C) (sensitivity transitionTime : ℚ) : StateMachine C :=
  { m with
    sensitivity := sensitivity
    transitionTime := transitionTime
    decay := m.maxStress / (max (1 / 10) transitionTime * 60) }

/-- Iterate `update` with a constant volume of 0, keeping the machine. -/
def runZero (m : StateMachine C) : ℕ → StateMachine C
  | 0 => m
  | n + 1 => (update (runZero m n) 0).1

end Logic

namespace Part1

variable {C : Type}

/-- `update(volume)` of the `src/unnamed/part_001` variant: identical to
`Logic.update` except that the gain constant is `0.005` instead of
`0.05`. -/
def update (m : Logic.StateMachine C) (volume : ℚ) :
    Logic.StateMachine C × List CatState :=
  let s1 := if volume > m.threshold
    then m.stress + (volume - m.threshold) * m.sensitivity * (5 / 1000)
    else m.stress - m.decay
  Logic.determineState { m with stress := clamp2 m.maxStress s1 }

end Part1

end NoiseCat

namespace NoiseCat

/-- `clamp2` never exceeds the bound. -/
theorem clamp2_le_bound (M x : ℚ) : clamp2 M x ≤ M := by
  simp only [clamp2]
  split_ifs <;> linarith

/-- `clamp2` is nonnegative when the bound is. -/
theorem clamp2_nonneg (M x : ℚ) (hM : 0 ≤ M) : 0 ≤ clamp2 M x := by
  simp only [clamp2]
  split_ifs <;> linarith

/-- `clamp2` never exceeds the positive part of its input. -/
theorem clamp2_le_max (M x : ℚ) : clamp2 M x ≤ max 0 x := by
  simp only [clamp2]
  split_ifs <;>
    first
      | exact le_max_left _ _
      | exact le_max_right _ _
      | exact le_max_of_le_left (by linarith)
      | exact le_max_of_le_right (by linarith)

/-- `clamp2` is the identity on inputs already inside the range. -/
theorem clamp2_eq_of (M x : ℚ) (h0 : 0 ≤ x) (h1 : x ≤ M) : clamp2 M x = x := by
  simp only [clamp2]
  split_ifs <;> linarith

namespace Script

variable {C : Type}

/-- The stress stored by `update`: the band-relative delta followed by the
two-step clamp. -/
theorem update_stress_eq_band (m : StateMachine C) (v : ℚ) :
    (update m v).1.stress =
      clamp2 m.maxStress
        (if v > m.volumeThreshold
          then m.stress +
            ((getCurrentStateRange m).2 - (getCurrentStateRange m).1) / (m.stateDuration * 60)
          else m.stress -
            ((getCurrentStateRange m).2 - (getCurrentStateRange m).1) / (m.stateDuration * 60)) := by
  simp only [update, determineState]
  split_ifs <;> rfl

/-- The state stored by `update` is the classification of the stress it
stored. -/
theorem update_state_eq_band (m : StateMachine C) (v : ℚ) :
    (update m v).1.state = classify m.thresholds (update m v).1.stress := by
  simp only [update, determineState]
  split_ifs with h1 h2 h2 <;> first | rfl | exact (not_not.mp h2).symm

/-- `update` copies every field other than `stress` and `state`. -/
theorem update_fields_band (m : StateMachine C) (v : ℚ) :
    (update m v).1.maxStress = m.maxStress ∧
    (update m v).1.callbacks = m.callbacks ∧
    (update m v).1.sensitivity = m.sensitivity ∧
    (update m v).1.stateDuration = m.stateDuration ∧
    (update m v).1.thresholds = m.thresholds ∧
    (update m v).1.volumeThreshold = m.volumeThreshold := by
  simp only [update, determineState]
  split_ifs <;> exact ⟨rfl, rfl, rfl, rfl, rfl, rfl⟩

end Script

namespace Logic

variable {C : Type}

/-- The stress stored by this variant's `update`: loudness-proportional
gain above the volume threshold, constant decay below, then the clamp. -/
theorem update_stress_eq_fixed (m : StateMachine C) (v : ℚ) :
    (update m v).1.stress =
      clamp2 m.maxStress
        (if v > m.threshold
          then m.stress + (v - m.threshold) * m.sensitivity * (5 / 100)
          else m.stress - m.decay) := by
  simp only [update, determineState]
  split_ifs <;> rfl

/-- The state stored by this variant's `update` is the classification of
the stress it stored. -/
theorem update_state_eq_fixed (m : StateMachine C) (v : ℚ) :
    (update m v).1.state = classify (update m v).1.stress := by
  simp only [update, determineState]
  split_ifs with h1 h2 h2 <;> first | rfl | exact (not_not.mp h2).symm

/-- This variant's `update` copies every field other than `stress` and
`state`. -/
theorem update_fields_fixed (m : StateMachine C) (v : ℚ) :
    (update m v).1.maxStress = m.maxStress ∧
    (update m v).1.callbacks = m.callbacks ∧
    (update m v).1.sensitivity = m.sensitivity ∧
    (update m v).1.transitionTime = m.transitionTime ∧
    (update m v).1.decay = m.decay ∧
    (update m v).1.threshold = m.threshold := by
  simp only [update, determineState]
  split_ifs <;> exact ⟨rfl, rfl, rfl, rfl, rfl, rfl⟩

/-- The state stored by `determineState` is the classification of the
current stress, whatever state was stored before. -/
theorem determineState_state_eq (m : StateMachine C) :
    (determineState m).1.state = classify m.stress := by
  simp only [determineState]
  split_ifs with h <;> first | rfl | exact (not_not.mp h).symm

end Logic

namespace Part1

variable {C : Type}

/-- The stress stored by the `part_001` `update`: same shape as the
`Logic` variant with gain constant `0.005`. -/
theorem update_stress_eq_part1 (m : Logic.StateMachine C) (v : ℚ) :
    (update m v).1.stress =
      clamp2 m.maxStress
        (if v > m.threshold
          then m.stress + (v - m.threshold) * m.sensitivity * (5 / 1000)
          else m.stress - m.decay) := by
  simp only [update, Logic.determineState]
  split_ifs <;> rfl

/-- The `part_001` `update` copies every field other than `stress` and
`state`. -/
theorem update_fields_part1 (m : Logic.StateMachine C) (v : ℚ) :
    (update m v).1.maxStress = m.maxStress ∧
    (update m v).1.callbacks = m.callbacks ∧
    (update m v).1.sensitivity = m.sensitivity ∧
    (update m v).1.transitionTime = m.transitionTime ∧
    (update m v).1.decay = m.decay ∧
    (update m v).1.threshold = m.threshold := by
  simp only [update, Logic.determineState]
  split_ifs <;> exact ⟨rfl, rfl, rfl, rfl, rfl, rfl⟩

end Part1

/-- C1: for every loudness ≥ 0 and every instance whose stress lies in
[0,100] (with the constructor's `maxStress = 100`), the stress stored and
returned by `update` lies in [0,100], in all three variants; moreover the
stored value is exactly the clamp of the per-frame delta applied to the
previous stress, so the clamp happens after the delta on every call. -/
theorem c1_update_stress_in_range {C : Type}
    (m : Script.StateMachine C) (mf mp : Logic.StateMachine C) (v : ℚ)
    (hv : 0 ≤ v)
    (hm : m.maxStress = 100) (hs0 : 0 ≤ m.stress) (hs1 : m.stress ≤ 100)
    (hfm : mf.maxStress = 100) (hf0 : 0 ≤ mf.stress) (hf1 : mf.stress ≤ 100)
    (hpm : mp.maxStress = 100) (hp0 : 0 ≤ mp.stress) (hp1 : mp.stress ≤ 100) :
    (0 ≤ (Script.update m v).1.stress ∧ (Script.update m v).1.stress ≤ 100 ∧
      (Script.update m v).1.stress =
        clamp2 m.maxStress
          (if v > m.volumeThreshold
            then m.stress +
              ((Script.getCurrentStateRange m).2 - (Script.getCurrentStateRange m).1) /
                (m.stateDuration * 60)
            else m.stress -
              ((Script.getCurrentStateRange m).2 - (Script.getCurrentStateRange m).1) /
                (m.stateDuration * 60))) ∧
    (0 ≤ (Logic.update mf v).1.stress ∧ (Logic.update mf v).1.stress ≤ 100) ∧
    (0 ≤ (Part1.update mp v).1.stress ∧ (Part1.update mp v).1.stress ≤ 100) := by
  refine ⟨⟨?_, ?_, Script.update_stress_eq_band m v⟩, ⟨?_, ?_⟩, ⟨?_, ?_⟩⟩
  · rw [Script.update_stress_eq_band m v]
    exact clamp2_nonneg _ _ (by rw [hm]; norm_num)
  · rw [Script.update_stress_eq_band m v]
    calc clamp2 m.maxStress _ ≤ m.maxStress := clamp2_le_bound _ _
      _ = 100 := hm
  · rw [Logic.update_stress_eq_fixed mf v]
    exact clamp2_nonneg _ _ (by rw [hfm]; norm_num)
  · rw [Logic.update_stress_eq_fixed mf v]
    calc clamp2 mf.maxStress _ ≤ mf.maxStress := clamp2_le_bound _ _
      _ = 100 := hfm
  · rw [Part1.update_stress_eq_part1 mp v]
    exact clamp2_nonneg _ _ (by rw [hpm]; norm_num)
  · rw [Part1.update_stress_eq_part1 mp v]
    calc clamp2 mp.maxStress _ ≤ mp.maxStress := clamp2_le_bound _ _
      _ = 100 := hpm

/-- C1 witness at concrete instances: fresh machines, loudness 255. -/
theorem c1_witness :
    0 ≤ (Script.update (Script.initMachine ()) 255).1.stress ∧
    (Script.update (Script.initMachine ()) 255).1.stress ≤ 100 ∧
    0 ≤ (Logic.update (Logic.initMachine ()) 255).1.stress ∧
    (Part1.update (Logic.initMachine ()) 255).1.stress ≤ 100 := by
  have h := c1_update_stress_in_range
    (Script.initMachine ()) (Logic.initMachine ()) (Logic.initMachine ()) 255
    (by norm_num)
    rfl (by norm_num [Script.initMachine]) (by norm_num [Script.initMachine])
    rfl (by norm_num [Logic.initMachine]) (by norm_num [Logic.initMachine])
    rfl (by norm_num [Logic.initMachine]) (by norm_num [Logic.initMachine])
  exact ⟨h.1.1, h.1.2.1, h.2.1.1, h.2.2.2⟩

/-- C2: on every call to `update` (band-relative and fixed-multiplier
variants alike), if the stored mood after the call differs from the mood
stored before it, exactly one notification is emitted, carrying the new
mood (whose key indexes the display descriptor); if the mood is
unchanged, no notification is emitted, even when the stress changed. -/
theorem c2_notify_exactly_on_mood_change {C : Type}
    (m : Script.StateMachine C) (mf : Logic.StateMachine C) (v : ℚ) :
    ((Script.update m v).1.state ≠ m.state →
      (Script.update m v).2 = [(Script.update m v).1.state]) ∧
    ((Script.update m v).1.state = m.state → (Script.update m v).2 = []) ∧
    ((Logic.update mf v).1.state ≠ mf.state →
      (Logic.update mf v).2 = [(Logic.update mf v).1.state]) ∧
    ((Logic.update mf v).1.state = mf.state → (Logic.update mf v).2 = []) := by
  refine ⟨?_, ?_, ?_, ?_⟩ <;>
    · simp only [Script.update, Script.determineState,
        Logic.update, Logic.determineState]
      split_ifs <;> intro h <;> simp_all

/-- C2 witness: a machine at stress 95 and state `SLEEP` reclassifies to
`PANIC` and emits it once; from the fresh machine, loudness 255 raises
stress only to 5/18 (below every threshold), so the mood stays `SLEEP`
and nothing is emitted even though the stress changed. -/
theorem c2_witness :
    ((Script.update ({ Script.initMachine () with stress := 95 }) 255).2 =
      [(Script.update ({ Script.initMachine () with stress := 95 }) 255).1.state]) ∧
    (Script.update (Script.initMachine ()) 255).2 = [] := by
  have h1 := (c2_notify_exactly_on_mood_change
    ({ Script.initMachine () with stress := 95 }) (Logic.initMachine ()) 255).1
  have h2 := (c2_notify_exactly_on_mood_change
    (Script.initMachine ()) (Logic.initMachine ()) 255).2.1
  refine ⟨h1 ?_, h2 ?_⟩
  · norm_num [Script.update, Script.determineState, Script.getCurrentStateRange,
      Script.classify, clamp2, Script.initMachine, defaultThresholds]
    decide
  · norm_num [Script.update, Script.determineState, Script.getCurrentStateRange,
      Script.classify, clamp2, Script.initMachine, defaultThresholds]

/-- C3: the classifier checks the bands from the highest lower bound
down: stress at or above the irritated→panic bound yields `PANIC`, else
at or above the anxious→irritated bound yields `IRRITATED`, else at or
above the calm→anxious bound yields `ANXIOUS`, else at or above the
sleep→calm bound yields `CALM`, and below every bound it defaults to
`SLEEP`; and in the fixed-multiplier variant the state stored by
`determineState` is exactly the classification of the current stress,
independent of the previously stored state.  (Both classifiers are pure
functions of the stress and the threshold set, so determinism is
immediate from the embedding.) -/
theorem c3_classify_highest_band_first {C : Type}
    (t : Thresholds) (s : ℚ) (mf : Logic.StateMachine C) :
    (t.IRRITATED ≤ s → Script.classify t s = CatState.PANIC) ∧
    (s < t.IRRITATED → t.ANXIOUS ≤ s → Script.classify t s = CatState.IRRITATED) ∧
    (s < t.IRRITATED → s < t.ANXIOUS → t.CALM ≤ s →
      Script.classify t s = CatState.ANXIOUS) ∧
    (s < t.IRRITATED → s < t.ANXIOUS → s < t.CALM → t.SLEEP ≤ s →
      Script.classify t s = CatState.CALM) ∧
    (s < t.IRRITATED → s < t.ANXIOUS → s < t.CALM → s < t.SLEEP →
      Script.classify t s = CatState.SLEEP) ∧
    (Logic.determineState mf).1.state = Logic.classify mf.stress := by
  refine ⟨?_, ?_, ?_, ?_, ?_, Logic.determineState_state_eq mf⟩ <;>
    · intros
      simp only [Script.classify]
      split_ifs <;> first | rfl | linarith

/-- C3 witness: concrete stresses in each of the five default bands. -/
theorem c3_witness :
    Script.classify defaultThresholds 95 = CatState.PANIC ∧
    Script.classify defaultThresholds 60 = CatState.IRRITATED ∧
    Script.classify defaultThresholds 45 = CatState.ANXIOUS ∧
    Script.classify defaultThresholds 10 = CatState.CALM ∧
    Script.classify defaultThresholds 5 = CatState.SLEEP := by
  refine ⟨?_, ?_, ?_, ?_, ?_⟩
  · exact (c3_classify_highest_band_first defaultThresholds 95
      (Logic.initMachine ())).1 (by decide)
  · exact (c3_classify_highest_band_first defaultThresholds 60
      (Logic.initMachine ())).2.1 (by decide) (by decide)
  · exact (c3_classify_highest_band_first defaultThresholds 45
      (Logic.initMachine ())).2.2.1 (by decide) (by decide) (by decide)
  · exact (c3_classify_highest_band_first defaultThresholds 10
      (Logic.initMachine ())).2.2.2.1 (by decide) (by decide) (by decide) (by decide)
  · exact (c3_classify_highest_band_first defaultThresholds 5
      (Logic.initMachine ())).2.2.2.2.1 (by decide) (by decide) (by decide) (by decide)

/-- C8: with non-decreasing threshold boundaries, classification is
monotone in the stress, for the order SLEEP < CALM < ANXIOUS < IRRITATED
< PANIC. -/
theorem c8_classify_monotone (t : Thresholds)
    (h1 : t.SLEEP ≤ t.CALM) (h2 : t.CALM ≤ t.ANXIOUS)
    (h3 : t.ANXIOUS ≤ t.IRRITATED)
    (s1 s2 : ℚ) (h : s1 ≤ s2) :
    (Script.classify t s1).toIdx ≤ (Script.classify t s2).toIdx := by
  simp only [Script.classify]
  split_ifs <;> simp [CatState.toIdx] <;> linarith

/-- C8 witness: default thresholds, stresses 5 and 95. -/
theorem c8_witness :
    (Script.classify defaultThresholds 5).toIdx ≤
      (Script.classify defaultThresholds 95).toIdx :=
  c8_classify_monotone defaultThresholds (by decide) (by decide) (by decide)
    5 95 (by decide)

/-- C10: in all three variants, `update` changes at most the `stress` and
`state` fields: the settings fields and the registered callbacks record
are identical before and after the call, for every loudness input. -/
theorem c10_update_only_stress_state {C : Type}
    (m : Script.StateMachine C) (mf mp : Logic.StateMachine C) (v : ℚ) :
    ((Script.update m v).1.sensitivity = m.sensitivity ∧
      (Script.update m v).1.stateDuration = m.stateDuration ∧
      (Script.update m v).1.thresholds = m.thresholds ∧
      (Script.update m v).1.volumeThreshold = m.volumeThreshold ∧
      (Script.update m v).1.maxStress = m.maxStress ∧
      (Script.update m v).1.callbacks = m.callbacks) ∧
    ((Logic.update mf v).1.sensitivity = mf.sensitivity ∧
      (Logic.update mf v).1.transitionTime = mf.transitionTime ∧
      (Logic.update mf v).1.decay = mf.decay ∧
      (Logic.update mf v).1.threshold = mf.threshold ∧
      (Logic.update mf v).1.maxStress = mf.maxStress ∧
      (Logic.update mf v).1.callbacks = mf.callbacks) ∧
    ((Part1.update mp v).1.sensitivity = mp.sensitivity ∧
      (Part1.update mp v).1.transitionTime = mp.transitionTime ∧
      (Part1.update mp v).1.decay = mp.decay ∧
      (Part1.update mp v).1.threshold = mp.threshold ∧
      (Part1.update mp v).1.maxStress = mp.maxStress ∧
      (Part1.update mp v).1.callbacks = mp.callbacks) := by
  obtain ⟨a1, a2, a3, a4, a5, a6⟩ := Script.update_fields_band m v
  obtain ⟨b1, b2, b3, b4, b5, b6⟩ := Logic.update_fields_fixed mf v
  obtain ⟨d1, d2, d3, d4, d5, d6⟩ := Part1.update_fields_part1 mp v
  exact ⟨⟨a3, a4, a5, a6, a1, a2⟩, ⟨b3, b4, b5, b6, b1, b2⟩, ⟨d3, d4, d5, d6, d1, d2⟩⟩

/-- C5 counterexample: in the band-relative variant, `setSettings` with a
duration of 0 stores 0 unchanged — there is no floor to 0.1 s — so the
divisor `stateDuration * 60` of every subsequent rate computation is 0. -/
theorem c5_counterexample :
    (Script.setSettings (Script.initMachine ()) ⟨none, some 0, none⟩).stateDuration = 0 ∧
    ¬ ((1 : ℚ) / 10 ≤
        (Script.setSettings (Script.initMachine ()) ⟨none, some 0, none⟩).stateDuration) ∧
    (Script.setSettings (Script.initMachine ()) ⟨none, some 0, none⟩).stateDuration * 60
      = 0 := by
  refine ⟨rfl, by norm_num [Script.setSettings, Script.initMachine], by norm_num [Script.setSettings, Script.initMachine]⟩

/-- C5 amended: only the fixed-multiplier variant floors the duration:
its `setSettings` recomputes `decay` with divisor
`max 0.1 transitionTime * 60`, which is positive for every requested
duration (including 0 and negatives), so that division never divides by
zero; the band-relative variant's `setSettings` stores the requested
duration unchanged, with no floor. -/
theorem c5_amended_decay_divisor_positive {C : Type}
    (m : Logic.StateMachine C) (sens t : ℚ) (s : Script.SettingsArg) :
    (Logic.setSettings m sens t).decay = m.maxStress / (max (1 / 10) t * 60) ∧
    (1 : ℚ) / 10 ≤ max (1 / 10) t ∧
    0 < max ((1 : ℚ) / 10) t * 60 ∧
    (Script.setSettings (Script.initMachine ()) s).stateDuration =
      (s.duration.getD (Script.initMachine ()).stateDuration) := by
  refine ⟨rfl, le_max_left _ _,
    mul_pos (lt_of_lt_of_le (by norm_num) (le_max_left _ _)) (by norm_num), ?_⟩
  rcases s with ⟨sv, dv, lv⟩
  rcases dv with _ | d <;> rcases sv with _ | a <;> rcases lv with _ | l <;> rfl

/-- C6: in the fixed-multiplier variants, when the loudness exceeds the
volume threshold each call stores the clamp of
`stress + (loudness - threshold) * sensitivity * gain` (gain 0.05 in
`StateMachine.js`, 0.005 in `part_001`), and otherwise the clamp of
`stress - decay`; after `setSettings` with a duration of at least 0.1 s
the decay equals `maxStress / (transitionTime * 60)` per frame.  Neither
delta mentions the mood bands, so both are independent of the band the
current stress is in. -/
theorem c6_fixed_multiplier_deltas {C : Type}
    (m : Logic.StateMachine C) (v sens t : ℚ) (ht : 1 / 10 ≤ t) :
    (v > m.threshold →
      (Logic.update m v).1.stress =
        clamp2 m.maxStress (m.stress + (v - m.threshold) * m.sensitivity * (5 / 100)) ∧
      (Part1.update m v).1.stress =
        clamp2 m.maxStress (m.stress + (v - m.threshold) * m.sensitivity * (5 / 1000))) ∧
    (¬ v > m.threshold →
      (Logic.update m v).1.stress = clamp2 m.maxStress (m.stress - m.decay) ∧
      (Part1.update m v).1.stress = clamp2 m.maxStress (m.stress - m.decay)) ∧
    (Logic.setSettings m sens t).decay = m.maxStress / (t * 60) := by
  refine ⟨?_, ?_, ?_⟩
  · intro h
    rw [Logic.update_stress_eq_fixed, Part1.update_stress_eq_part1, if_pos h, if_pos h]
    exact ⟨rfl, rfl⟩
  · intro h
    rw [Logic.update_stress_eq_fixed, Part1.update_stress_eq_part1, if_neg h, if_neg h]
    exact ⟨rfl, rfl⟩
  · simp only [Logic.setSettings]
    rw [max_eq_right ht]

/-- C6 witness: fresh machine, loudness 50 (above the threshold 10) and
loudness 0 (below it); `setSettings` with duration 5 s. -/
theorem c6_witness :
    ((Logic.update (Logic.initMachine ()) 50).1.stress =
      clamp2 (Logic.initMachine ()).maxStress
        ((Logic.initMachine ()).stress +
          (50 - (Logic.initMachine ()).threshold) * (Logic.initMachine ()).sensitivity
            * (5 / 100)) ∧
     (Part1.update (Logic.initMachine ()) 50).1.stress =
      clamp2 (Logic.initMachine ()).maxStress
        ((Logic.initMachine ()).stress +
          (50 - (Logic.initMachine ()).threshold) * (Logic.initMachine ()).sensitivity
            * (5 / 1000))) ∧
    ((Logic.update (Logic.initMachine ()) 0).1.stress =
      clamp2 (Logic.initMachine ()).maxStress
        ((Logic.initMachine ()).stress - (Logic.initMachine ()).decay)) ∧
    (Logic.setSettings (Logic.initMachine ()) 2 5).decay =
      (Logic.initMachine ()).maxStress / (5 * 60) := by
  have h := c6_fixed_multiplier_deltas (Logic.initMachine ()) 50 2 5 (by norm_num)
  have h0 := c6_fixed_multiplier_deltas (Logic.initMachine ()) 0 2 5 (by norm_num)
  exact ⟨h.1 (by decide), (h0.2.1 (by decide)).1, h.2.2⟩

/-- C7 counterexample: a persisted record whose `sensitivity` field holds
the (truthy but non-numeric) string "abc" is not skipped by
`loadSettings`: the string is stored as the instance's sensitivity,
which no longer equals the default `1.0`. -/
theorem c7_counterexample :
    (Script.loadSettings (.parsed ⟨.str "abc", .num 7, none⟩)
        Script.defaultLoaded).sensitivity = .str "abc" ∧
    (Script.loadSettings (.parsed ⟨.str "abc", .num 7, none⟩)
        Script.defaultLoaded).sensitivity ≠ Script.defaultLoaded.sensitivity := by
  exact ⟨rfl, by decide⟩

/-- C7 amended: loading never aborts (an absent or unparseable record
leaves the instance unchanged and construction continues), and a missing
or falsy persisted field is skipped individually — it keeps its previous
(default) value while a truthy `duration` field in the same record is
still applied; a truthy malformed field, however, is stored as-is rather
than skipped. -/
theorem c7_amended_load_field_by_field
    (s : Script.SavedSettings) (m : Script.LoadedSettings)
    (hs : s.sensitivity.truthy = false) (hd : s.duration.truthy = true) :
    (Script.loadSettings (.parsed s) m).sensitivity = m.sensitivity ∧
    (Script.loadSettings (.parsed s) m).stateDuration = s.duration ∧
    Script.loadSettings .malformed m = m ∧
    Script.loadSettings .absent m = m := by
  refine ⟨?_, ?_, rfl, rfl⟩ <;>
    · simp only [Script.loadSettings, hs, hd, Bool.false_eq_true, if_false, if_true]
      rcases s.thresholds with _ | t <;> rfl

/-- C7 witness: a record with `sensitivity` missing and `duration = 7`
applied to the defaults keeps sensitivity `1.0` and stores duration 7. -/
theorem c7_witness :
    (Script.loadSettings (.parsed ⟨.undef, .num 7, none⟩)
        Script.defaultLoaded).sensitivity = Script.defaultLoaded.sensitivity ∧
    (Script.loadSettings (.parsed ⟨.undef, .num 7, none⟩)
        Script.defaultLoaded).stateDuration = .num 7 := by
  have h := c7_amended_load_field_by_field ⟨.undef, .num 7, none⟩
    Script.defaultLoaded rfl (by decide)
  exact ⟨h.1, h.2.1⟩

namespace Script

/-- In the timing scenario (duration 3 s, sustained loudness 255), after
`n ≤ 180` frames the stress is exactly `n/18`, the state is `SLEEP`
until frame 179 and `CALM` at frame 180, and the settings fields are
untouched. -/
theorem scenario_invariant (n : ℕ) (hn : n ≤ 180) :
    (runConst scenarioMachine 255 n).stress = n / 18 ∧
    (runConst scenarioMachine 255 n).state =
      (if n = 180 then CatState.CALM else CatState.SLEEP) ∧
    (runConst scenarioMachine 255 n).thresholds = defaultThresholds ∧
    (runConst scenarioMachine 255 n).stateDuration = 3 ∧
    (runConst scenarioMachine 255 n).maxStress = 100 ∧
    (runConst scenarioMachine 255 n).volumeThreshold = 10 := by
  induction n with
  | zero =>
    refine ⟨by norm_num [runConst, scenarioMachine, initMachine], ?_, rfl, rfl, rfl, rfl⟩
    norm_num [runConst, scenarioMachine, initMachine]
  | succ k ih =>
    obtain ⟨hstress, hstate, hth, hdur, hmax, hvol⟩ := ih (by omega)
    have hk179 : (k : ℚ) ≤ 179 := by
      have hk : k ≤ 179 := by omega
      exact_mod_cast hk
    have hk0 : (0 : ℚ) ≤ (k : ℚ) := Nat.cast_nonneg k
    have hlt : (runConst scenarioMachine 255 k).stress < (10 : ℚ) := by
      rw [hstress]; linarith
    have hrange : getCurrentStateRange (runConst scenarioMachine 255 k) = (0, 10) := by
      simp only [getCurrentStateRange, hth, defaultThresholds]
      rw [if_pos hlt]
    have hupd := update_stress_eq_band (runConst scenarioMachine 255 k) 255
    rw [hrange, hvol, hdur, hmax, hstress] at hupd
    have h255 : (255 : ℚ) > 10 := by norm_num
    rw [if_pos h255] at hupd
    have harith : (k : ℚ) / 18 + ((0, (10 : ℚ)).2 - (0, (10 : ℚ)).1) / (3 * 60)
        = ((k : ℚ) + 1) / 18 := by
      norm_num
      ring
    rw [harith] at hupd
    have hsucc : (runConst scenarioMachine 255 (k + 1)).stress = ((k : ℚ) + 1) / 18 := by
      show (update (runConst scenarioMachine 255 k) 255).1.stress = ((k : ℚ) + 1) / 18
      rw [hupd]
      exact clamp2_eq_of _ _ (by positivity) (by linarith)
    obtain ⟨f1, f2, f3, f4, f5, f6⟩ := update_fields_band (runConst scenarioMachine 255 k) 255
    have hstate' := update_state_eq_band (runConst scenarioMachine 255 k) 255
    rw [hth] at hstate'
    refine ⟨by push_cast [hsucc]; ring, ?_, f5 ▸ hth, f4 ▸ hdur, f1 ▸ hmax, f6 ▸ hvol⟩
    show (update (runConst scenarioMachine 255 k) 255).1.state = _
    rw [hstate', hupd, clamp2_eq_of _ _ (by positivity) (by linarith)]
    by_cases hk180 : k + 1 = 180
    · have : ((k : ℚ) + 1) / 18 = 10 := by
        have : (k : ℚ) = 179 := by exact_mod_cast congrArg (fun x => x - 1) hk180
        rw [this]; norm_num
      rw [this, if_pos hk180]
      simp only [classify, defaultThresholds]
      norm_num
    · have hklt : (k : ℚ) + 1 < 180 := by
        have hk' : k + 1 < 180 := lt_of_le_of_ne hn hk180
        exact_mod_cast hk'
      have hlt10 : ((k : ℚ) + 1) / 18 < 10 := by linarith
      rw [if_neg hk180]
      simp only [classify, defaultThresholds]
      rw [if_neg (by linarith), if_neg (by linarith), if_neg (by linarith),
        if_neg (by linarith)]

end Script

/-- C4: in the band-relative variant, each call stores the clamp of the
previous stress plus-or-minus exactly
`rate = (bandMax - bandMin) / (stateDuration * 60)` for the band
containing the current stress — added when the loudness exceeds the
volume threshold, subtracted otherwise; two loudness values above the
threshold produce identical calls (the magnitude is irrelevant); and in
the scenario (thresholds {10,30,60,90}, duration 3 s, loudness 255 from
stress 0) the stress is `n/18` with mood `SLEEP` for every frame
`n ≤ 179`, and at frame 180 the stress first reaches 10 and the mood
flips to `CALM`. -/
theorem c4_band_relative_rate {C : Type}
    (m : Script.StateMachine C) (v v1 v2 : ℚ) (n : ℕ)
    (h1 : v1 > m.volumeThreshold) (h2 : v2 > m.volumeThreshold) (hn : n ≤ 179) :
    ((Script.update m v).1.stress =
      clamp2 m.maxStress
        (if v > m.volumeThreshold
          then m.stress +
            ((Script.getCurrentStateRange m).2 - (Script.getCurrentStateRange m).1) /
              (m.stateDuration * 60)
          else m.stress -
            ((Script.getCurrentStateRange m).2 - (Script.getCurrentStateRange m).1) /
              (m.stateDuration * 60))) ∧
    Script.update m v1 = Script.update m v2 ∧
    ((Script.runConst Script.scenarioMachine 255 n).stress = n / 18 ∧
      (Script.runConst Script.scenarioMachine 255 n).state = CatState.SLEEP) ∧
    (Script.runConst Script.scenarioMachine 255 180).stress = 10 ∧
    (Script.runConst Script.scenarioMachine 255 180).state = CatState.CALM := by
  obtain ⟨hs, hst, -⟩ := Script.scenario_invariant n (by omega)
  obtain ⟨hs180, hst180, -⟩ := Script.scenario_invariant 180 le_rfl
  refine ⟨Script.update_stress_eq_band m v, ?_, ⟨hs, ?_⟩, ?_, ?_⟩
  · simp only [Script.update]
    rw [if_pos h1, if_pos h2]
  · rw [hst, if_neg (by omega)]
  · rw [hs180]; norm_num
  · rw [hst180]; norm_num

/-- C4 witness: loudness 255 and 300 yield the same call; at frame 90 the
scenario stress is 5 with mood `SLEEP`; at frame 180 it is 10 with mood
`CALM`. -/
theorem c4_witness :
    Script.update Script.scenarioMachine 255 = Script.update Script.scenarioMachine 300 ∧
    (Script.runConst Script.scenarioMachine 255 90).stress = 5 ∧
    (Script.runConst Script.scenarioMachine 255 90).state = CatState.SLEEP ∧
    (Script.runConst Script.scenarioMachine 255 180).stress = 10 ∧
    (Script.runConst Script.scenarioMachine 255 180).state = CatState.CALM := by
  have h := c4_band_relative_rate Script.scenarioMachine 0 255 300 90
    (by norm_num [Script.scenarioMachine, Script.initMachine])
    (by norm_num [Script.scenarioMachine, Script.initMachine])
    (by omega)
  refine ⟨h.2.1, ?_, h.2.2.1.2, h.2.2.2.1, h.2.2.2.2⟩
  rw [h.2.2.1.1]; norm_num

/-- `clamp2` sends negative inputs to 0 when the bound is nonnegative. -/
theorem clamp2_of_neg (M x : ℚ) (hx : x < 0) (hM : 0 ≤ M) : clamp2 M x = 0 := by
  simp only [clamp2]
  rw [if_pos hx, if_neg (not_lt.mpr hM)]

/-- Positive-part decrease is monotone: subtracting the same nonnegative
amount preserves the `max 0` bound. -/
theorem max_sub_mono (a b d : ℚ) (hd : 0 ≤ d) (h : a ≤ max 0 b) :
    max 0 (a - d) ≤ max 0 (b - d) := by
  rcases le_total b 0 with hb | hb
  · have ha : a ≤ 0 := le_trans h (le_of_eq (max_eq_left hb))
    rw [max_eq_left (by linarith : a - d ≤ 0)]
    exact le_max_left _ _
  · have ha : a ≤ b := le_trans h (le_of_eq (max_eq_right hb))
    exact max_le_max le_rfl (by linarith)

namespace Script

/-- Whatever the current stress, the width of the band chosen by
`getCurrentStateRange` is at least the least band width. -/
theorem minBandWidth_le (m : StateMachine C) :
    minBandWidth m.thresholds ≤
      (getCurrentStateRange m).2 - (getCurrentStateRange m).1 := by
  have l1 : minBandWidth m.thresholds ≤ m.thresholds.SLEEP := min_le_left _ _
  have l2 : minBandWidth m.thresholds ≤ m.thresholds.CALM - m.thresholds.SLEEP :=
    le_trans (min_le_right _ _) (min_le_left _ _)
  have l3 : minBandWidth m.thresholds ≤ m.thresholds.ANXIOUS - m.thresholds.CALM :=
    le_trans (min_le_right _ _) (le_trans (min_le_right _ _) (min_le_left _ _))
  have l4 : minBandWidth m.thresholds ≤ m.thresholds.IRRITATED - m.thresholds.ANXIOUS :=
    le_trans (min_le_right _ _)
      (le_trans (min_le_right _ _) (le_trans (min_le_right _ _) (min_le_left _ _)))
  have l5 : minBandWidth m.thresholds ≤ 100 - m.thresholds.IRRITATED :=
    le_trans (min_le_right _ _)
      (le_trans (min_le_right _ _) (le_trans (min_le_right _ _) (min_le_right _ _)))
  simp only [getCurrentStateRange]
  split_ifs <;> simp <;> linarith

/-- One silent frame: the stress stays nonnegative and loses at least the
least band width divided by `stateDuration * 60` (until it hits 0). -/
theorem stepZero_progress (m : StateMachine C)
    (hd : 0 < m.stateDuration) (hv : 0 ≤ m.volumeThreshold) (hm : 0 ≤ m.maxStress) :
    0 ≤ (update m 0).1.stress ∧
    (update m 0).1.stress ≤
      max 0 (m.stress - minBandWidth m.thresholds / (m.stateDuration * 60)) := by
  have hupd := update_stress_eq_band m 0
  rw [if_neg (not_lt.mpr hv)] at hupd
  have hden : (0 : ℚ) < m.stateDuration * 60 := by positivity
  have hrate : minBandWidth m.thresholds / (m.stateDuration * 60) ≤
      ((getCurrentStateRange m).2 - (getCurrentStateRange m).1) /
        (m.stateDuration * 60) := by
    gcongr
    exact minBandWidth_le m
  constructor
  · rw [hupd]; exact clamp2_nonneg _ _ hm
  · rw [hupd]
    refine le_trans (clamp2_le_max _ _) ?_
    exact max_le_max le_rfl (by linarith)

/-- Invariant of the all-silent run: the settings fields never change,
the stress stays nonnegative, and after `n` frames it is bounded by the
positive part of `stress - n · rate` for the least per-frame rate. -/
theorem runZero_invariant (m : StateMachine C)
    (hd : 0 < m.stateDuration) (hv : 0 ≤ m.volumeThreshold) (hm : 0 ≤ m.maxStress)
    (hs : 0 ≤ m.stress) (hw : 0 < minBandWidth m.thresholds) (n : ℕ) :
    (runZero m n).thresholds = m.thresholds ∧
    (runZero m n).stateDuration = m.stateDuration ∧
    (runZero m n).maxStress = m.maxStress ∧
    (runZero m n).volumeThreshold = m.volumeThreshold ∧
    0 ≤ (runZero m n).stress ∧
    (runZero m n).stress ≤
      max 0 (m.stress - n * (minBandWidth m.thresholds / (m.stateDuration * 60))) := by
  induction n with
  | zero => exact ⟨rfl, rfl, rfl, rfl, hs, by norm_num [runZero]⟩
  | succ k ih =>
    obtain ⟨ht, hdur, hmax, hvol, h0, hb⟩ := ih
    have hδ : (0 : ℚ) < minBandWidth m.thresholds / (m.stateDuration * 60) := by
      positivity
    have hstep := stepZero_progress (runZero m k) (hdur ▸ hd) (hvol ▸ hv) (hmax ▸ hm)
    rw [ht, hdur] at hstep
    obtain ⟨f1, f2, f3, f4, f5, f6⟩ := update_fields_band (runZero m k) 0
    refine ⟨f5.trans ht, f4.trans hdur, f1.trans hmax, f6.trans hvol, hstep.1, ?_⟩
    refine le_trans hstep.2 ?_
    refine le_trans (max_sub_mono _ _ _ (le_of_lt hδ) hb) (le_of_eq ?_)
    congr 1
    push_cast
    ring

end Script

/-- C9: with strictly ascending thresholds inside (0,100), a positive
transition duration and a nonnegative volume threshold, feeding loudness
0 on every frame from any stress in [0,100] reaches stress exactly 0 and
mood `SLEEP` within an explicitly computable number of frames — the
ceiling of `100 / rateMin` plus one, where `rateMin` is the least band
width over `stateDuration * 60` — and both stay there on every later
frame. -/
theorem c9_zero_loudness_reaches_sleep {C : Type} (m : Script.StateMachine C)
    (h0 : 0 < m.thresholds.SLEEP) (h1 : m.thresholds.SLEEP < m.thresholds.CALM)
    (h2 : m.thresholds.CALM < m.thresholds.ANXIOUS)
    (h3 : m.thresholds.ANXIOUS < m.thresholds.IRRITATED)
    (h4 : m.thresholds.IRRITATED < 100)
    (hd : 0 < m.stateDuration) (hv : 0 ≤ m.volumeThreshold)
    (hm : 0 ≤ m.maxStress) (hs : 0 ≤ m.stress) (hs1 : m.stress ≤ 100)
    (k : ℕ)
    (hk : Nat.ceil ((100 : ℚ) /
        (minBandWidth m.thresholds / (m.stateDuration * 60))) + 1 ≤ k) :
    (Script.runZero m k).stress = 0 ∧
    (Script.runZero m k).state = CatState.SLEEP := by
  have hw : 0 < minBandWidth m.thresholds := by
    simp only [minBandWidth, lt_min_iff]
    exact ⟨h0, by linarith, by linarith, by linarith, by linarith⟩
  have hδ : (0 : ℚ) < minBandWidth m.thresholds / (m.stateDuration * 60) := by
    positivity
  have key : ∀ j : ℕ,
      Nat.ceil ((100 : ℚ) /
        (minBandWidth m.thresholds / (m.stateDuration * 60))) ≤ j →
      (Script.runZero m j).stress = 0 := by
    intro j hj
    obtain ⟨-, -, -, -, hpos, hbound⟩ :=
      Script.runZero_invariant m hd hv hm hs hw j
    have hcast : ((100 : ℚ) / (minBandWidth m.thresholds / (m.stateDuration * 60)))
        ≤ (j : ℚ) := le_trans (Nat.le_ceil _) (by exact_mod_cast hj)
    have hjδ : (100 : ℚ) ≤
        (j : ℚ) * (minBandWidth m.thresholds / (m.stateDuration * 60)) := by
      rw [div_le_iff₀ hδ] at hcast
      linarith [hcast]
    have hneg : m.stress -
        (j : ℚ) * (minBandWidth m.thresholds / (m.stateDuration * 60)) ≤ 0 := by
      linarith
    rw [max_eq_left hneg] at hbound
    exact le_antisymm hbound hpos
  obtain ⟨j, rfl⟩ : ∃ j, k = j + 1 := ⟨k - 1, by omega⟩
  have hj0 : (Script.runZero m j).stress = 0 := key j (by omega)
  obtain ⟨ht, hdur, hmax, hvol, -, -⟩ :=
    Script.runZero_invariant m hd hv hm hs hw j
  have hunfold : Script.runZero m (j + 1) =
      (Script.update (Script.runZero m j) 0).1 := rfl
  have hupd := Script.update_stress_eq_band (Script.runZero m j) 0
  rw [if_neg (by rw [hvol]; exact not_lt.mpr hv)] at hupd
  have hrate : 0 <
      ((Script.getCurrentStateRange (Script.runZero m j)).2 -
        (Script.getCurrentStateRange (Script.runZero m j)).1) /
        ((Script.runZero m j).stateDuration * 60) := by
    have hwle := Script.minBandWidth_le (Script.runZero m j)
    rw [ht] at hwle
    have hden : (0 : ℚ) < (Script.runZero m j).stateDuration * 60 := by
      rw [hdur]; positivity
    exact div_pos (lt_of_lt_of_le hw hwle) hden
  have hstress0 : (Script.update (Script.runZero m j) 0).1.stress = 0 := by
    rw [hupd]
    refine clamp2_of_neg _ _ ?_ (by rw [hmax]; exact hm)
    rw [hj0]
    linarith
  refine ⟨hunfold ▸ hstress0, ?_⟩
  have hstate := Script.update_state_eq_band (Script.runZero m j) 0
  rw [hstress0, ht] at hstate
  rw [hunfold, hstate]
  simp only [Script.classify]
  rw [if_neg (by push_neg; linarith), if_neg (by push_neg; linarith),
    if_neg (by push_neg; linarith), if_neg (by push_neg; linarith)]

/-- C9 witness: the fresh machine forced to stress 100 and state `PANIC`
(duration 5 s, default thresholds) reaches stress 0 and `SLEEP` by frame
3001. -/
theorem c9_witness :
    (Script.runZero
      ({ Script.initMachine () with stress := 100, state := CatState.PANIC })
      3001).stress = 0 ∧
    (Script.runZero
      ({ Script.initMachine () with stress := 100, state := CatState.PANIC })
      3001).state = CatState.SLEEP :=
  c9_zero_loudness_reaches_sleep _
    (by norm_num [Script.initMachine, defaultThresholds])
    (by norm_num [Script.initMachine, defaultThresholds])
    (by norm_num [Script.initMachine, defaultThresholds])
    (by norm_num [Script.initMachine, defaultThresholds])
    (by norm_num [Script.initMachine, defaultThresholds])
    (by norm_num [Script.initMachine])
    (by norm_num [Script.initMachine])
    (by norm_num [Script.initMachine])
    (by norm_num [Script.initMachine])
    (by norm_num [Script.initMachine])
    3001
    (by norm_num [Script.initMachine, defaultThresholds, minBandWidth])

end NoiseCat
